import Mathlib

/-!
Verification development for the virtual-hr multi-agent assistant.

Shallow embedding conventions:
- Python `None` / missing dict keys are `Option.none`; Python string
  truthiness (`if not s`) is `strTruthy` (empty string and `None` are falsy);
  Python integer truthiness is `intTruthy` (`0` and `None` are falsy);
  `a or b` on such values is `pyOrStr`.
- Calendar dates (well-formed `YYYY-MM-DD` strings in the source) are
  embedded as integer day numbers, so `datetime.strptime` / `timedelta`
  arithmetic becomes plain integer arithmetic; `(end - start).days` is
  `endD - startD`.
- The Google-Sheets worksheets are embedded as Lean lists of records in
  row order (the header row is implicit).  `append_row` is list append,
  `update_cell` on a found row is `List.set`.
- External effects that can raise (the sheet write, the feedback analysis
  call) are modelled by an explicit `Option String` argument: `none` means
  the call succeeds, `some e` means it raised an exception whose text is
  `e`; when it raises, no row has been written.
- The external LLM calls (intent understanding, sentiment analysis) are
  modelled as oracle function arguments; their outputs are universally
  quantified in the theorems.
-/

namespace VirtualHR

/-- Python truthiness of an optional string: `None` and `""` are falsy. -/
def strTruthy : Option String → Bool
  | none => false
  | some s => s != ""

/-- Python truthiness of an optional integer: `None` and `0` are falsy. -/
def intTruthy : Option Int → Bool
  | none => false
  | some n => n != 0

/-- Python `a or b` on optional strings: yields `a` when `a` is truthy,
otherwise `b` (which may itself be falsy). -/
def pyOrStr (a b : Option String) : Option String :=
  if strTruthy a then a else b

/-- Python `a or b` where the fallback is a plain string
(`context.get("feedback_text") or query`). -/
def pyOrStrD (a : Option String) (b : String) : String :=
  match a with
  | none => b
  | some s => if s = "" then b else s

/-- ASCII lower-casing of one character (the inputs the source compares are
all ASCII, so this matches Python `str.lower` on them). -/
def pyLowerChar (c : Char) : Char :=
  if 'A' ≤ c && c ≤ 'Z' then Char.ofNat (c.toNat + 32) else c

/-- Python `str.lower` (ASCII). -/
def pyLower (s : String) : String :=
  String.mk (s.data.map pyLowerChar)

/-- ASCII whitespace, as stripped by Python `str.strip()`. -/
def isSpaceChar (c : Char) : Bool :=
  c == ' ' || c == '\t' || c == '\n' || c == '\r' ||
  c == Char.ofNat 11 || c == Char.ofNat 12

/-- Python `str.strip()`: removes leading and trailing whitespace. -/
def pyStrip (s : String) : String :=
  String.mk (((s.data.dropWhile isSpaceChar).reverse.dropWhile isSpaceChar).reverse)

/-- Python `str.__len__`: the number of characters. -/
def pyLen (s : String) : Nat :=
  s.data.length

/-- Python slicing `s[n:]` by character count. -/
def pyDrop (s : String) (n : Nat) : String :=
  String.mk (s.data.drop n)

/-- Character-list test: does the first list begin with the second. -/
def beginsWith : List Char → List Char → Bool
  | _, [] => true
  | [], _ :: _ => false
  | c :: cs, d :: ds => c == d && beginsWith cs ds

/-- Character-list substring test (Python `needle in haystack`). -/
def containsSub : List Char → List Char → Bool
  | [], needle => needle.isEmpty
  | c :: cs, needle => beginsWith (c :: cs) needle || containsSub cs needle

/-- Python `sub in s` on strings. -/
def strContains (s sub : String) : Bool :=
  containsSub s.data sub.data

/-- Python `str.startswith`. -/
def pyStartsWith (s p : String) : Bool :=
  beginsWith s.data p.data

/-! ## Data model: sheet rows (utils/sheets_client.py) -/

/-- One row of the Leave Tracker sheet, columns in `LeaveTrackerSheet.HEADERS`
order: Employee ID, Employee Name, Leave Type, Start Date, End Date,
Number of Days, Leave Status, Requested On, Approval Date, Comments/Reason.
Dates are embedded as day numbers; the two timestamp columns are kept as
opaque strings. -/
structure LeaveRecord where
  employee_id : String
  employee_name : String
  leave_type : String
  start_date : Int
  end_date : Int
  num_days : Int
  status : String
  requested_on : String
  approval_date : String
  comments : String
deriving Repr, DecidableEq, Inhabited

/-- One row of the Feedback Tracker sheet, columns in
`FeedbackTrackerSheet.HEADERS` order: Feedback, Sentiment, Action Items,
Submitted On. -/
structure FeedbackRecord where
  feedback : String
  sentiment : String
  action_items : String
  submitted_on : String
deriving Repr, DecidableEq, Inhabited

/-! ## Config (src/config.py) -/

/-- The three environment-configurable default balances of `Config`
(`DEFAULT_ANNUAL_LEAVE_BALANCE` etc., with their documented fallbacks). -/
structure LeaveConfig where
  annual : Int := 20
  sick : Int := 10
  personal : Int := 5
deriving Repr, DecidableEq, Inhabited

/-- `Config.get_leave_balance_defaults` as a lookup: the returned dict has
entries for Annual, Sick, Personal, Maternity (90), Paternity (15) and
Marriage (5); any other key (in particular "Bereavement") is absent. -/
def get_leave_balance_defaults (cfg : LeaveConfig) (lt : String) : Option Int :=
  if lt = "Annual" then some cfg.annual
  else if lt = "Sick" then some cfg.sick
  else if lt = "Personal" then some cfg.personal
  else if lt = "Maternity" then some 90
  else if lt = "Paternity" then some 15
  else if lt = "Marriage" then some 5
  else none

/-- `LeaveTrackerAgent.LEAVE_TYPES`. -/
def LEAVE_TYPES : List String :=
  ["Annual", "Sick", "Personal", "Maternity", "Paternity", "Marriage", "Bereavement"]

/-! ## LeaveTrackerSheet operations (utils/sheets_client.py) -/

/-- `LeaveTrackerSheet.add_leave_request`: appends a new Pending row and
returns it. -/
def add_leave_request (store : List LeaveRecord)
    (employee_id employee_name leave_type : String)
    (start_date end_date : Int) (num_days : Int) (reason : String)
    (now : String) : LeaveRecord × List LeaveRecord :=
  let r : LeaveRecord :=
    { employee_id := employee_id
      employee_name := employee_name
      leave_type := leave_type
      start_date := start_date
      end_date := end_date
      num_days := num_days
      status := "Pending"
      requested_on := now
      approval_date := ""
      comments := reason }
  (r, store ++ [r])

/-- `LeaveTrackerSheet.get_leave_history`: all rows of the employee, in
storage order. -/
def get_leave_history (store : List LeaveRecord) (employee_id : String) :
    List LeaveRecord :=
  store.filter (fun r => r.employee_id == employee_id)

/-- `LeaveTrackerSheet.calculate_used_leaves`: total Number of Days over the
employee's rows of the given type with Leave Status "Approved". -/
def calculate_used_leaves (store : List LeaveRecord)
    (employee_id leave_type : String) : Int :=
  ((get_leave_history store employee_id).filter
    (fun r => r.leave_type == leave_type && r.status == "Approved")).foldl
    (fun acc r => acc + r.num_days) 0

/-- The row condition of the search loop in
`LeaveTrackerSheet.update_leave_status`: same employee, status Pending, and
when a start date was supplied (truthy) it must match. -/
def matchesPending (r : LeaveRecord) (employee_id : String)
    (start_date : Option Int) : Bool :=
  r.employee_id == employee_id && r.status == "Pending" &&
    (match start_date with
     | none => true
     | some d => r.start_date == d)

/-- Index of the first matching row (the loop with `break` in
`update_leave_status`). -/
def findPendingIdx (employee_id : String) (start_date : Option Int) :
    List LeaveRecord → Option Nat
  | [] => none
  | r :: rest =>
    if matchesPending r employee_id start_date then some 0
    else (findPendingIdx employee_id start_date rest).map (· + 1)

/-- Result of `LeaveTrackerSheet.update_leave_status`: either the error
dict or the updated-confirmation dict. -/
inductive SheetUpdateResult where
  | error (msg : String)
  | updated (employee_id status reason : String)
deriving Repr, DecidableEq

/-- `LeaveTrackerSheet.update_leave_status`: finds the first Pending row of
the employee (matching `start_date` when given), sets Leave Status and
Approval Date, and appends the reason to the Comments column with an
" | HR: " separator (or "HR: " when the comment was empty). When no row
matches it returns the error dict and leaves the sheet unchanged. -/
def update_leave_status (store : List LeaveRecord)
    (employee_id status reason : String) (start_date : Option Int)
    (now : String) : SheetUpdateResult × List LeaveRecord :=
  match findPendingIdx employee_id start_date store with
  | none =>
    (.error ("No pending leave found for employee " ++ employee_id), store)
  | some i =>
    let r := store.getD i default
    let newComment :=
      if r.comments != "" then r.comments ++ " | HR: " ++ reason
      else "HR: " ++ reason
    (.updated employee_id status reason,
      store.set i { r with status := status, approval_date := now,
                           comments := newComment })

/-! ## Leave Tracker Agent (agents/leave_agent/leave_agent.py) -/

/-- The parameter dict produced by the router / intent understanding
(`extracted_params`).  Every field models one key; `none` stands for the
key being absent or null. -/
structure ExtractedParams where
  employee_id : Option String := none
  employee_name : Option String := none
  leave_type : Option String := none
  start_date : Option Int := none
  end_date : Option Int := none
  num_days : Option Int := none
  reason : Option String := none
  status : Option String := none
  approval_reason : Option String := none
deriving Repr, DecidableEq, Inhabited

/-- The `context` dict given to `LeaveTrackerAgent.handle`. -/
structure LeaveContext where
  action : String := ""
  employee_id : Option String := none
  employee_name : Option String := none
  is_hr : Bool := false
  extracted_params : ExtractedParams := {}
deriving Repr, DecidableEq, Inhabited

/-- `LeaveTrackerAgent._get_leave_balance`: the per-type allowance minus the
approved days used, floored at zero; `none` when the type has no entry in
the defaults dict. -/
def get_leave_balance (cfg : LeaveConfig) (store : List LeaveRecord)
    (employee_id leave_type : String) : Option Int :=
  (get_leave_balance_defaults cfg leave_type).map
    (fun d => max 0 (d - calculate_used_leaves store employee_id leave_type))

/-- The end-date / day-count derivation of `_handle_submit_leave`
(lines 160-180): when only `num_days` is truthy the end date becomes
`start + num_days - 1`; when `num_days` is falsy and an end date is known
the day count becomes `(end - start) + 1`; when no end date is known at
all, the end date defaults to the start date and the day count to 1.
Returns the final (end date, day count) pair. -/
def deriveDates (start : Int) (endD numD : Option Int) : Int × Int :=
  let e1 : Option Int :=
    if endD.isNone && intTruthy numD then some (start + numD.getD 0 - 1)
    else endD
  let n1 : Option Int :=
    if !intTruthy numD && e1.isSome then some (e1.getD 0 - start + 1)
    else numD
  match e1 with
  | none => (start, 1)
  | some ed => (ed, n1.getD 0)

/-- The branch taken by `_handle_submit_leave`, one constructor per
`return` site. -/
inductive SubmitOutcome where
  | missingIdentity
  | missingStartDate
  | insufficientBalance (leave_type : String) (balance requested : Int)
  | submitFailed (e : String)
  | submitted (r : LeaveRecord)
deriving Repr, DecidableEq

/-- `LeaveTrackerAgent._handle_submit_leave`: merges identity from context
over extracted params, validates identity and start date, derives the
missing one of end date / day count, rejects when the day count exceeds a
known balance, and otherwise appends a Pending row (unless the sheet write
raises `writeErr`). -/
def handle_submit_leave (cfg : LeaveConfig) (ctx : LeaveContext)
    (store : List LeaveRecord) (writeErr : Option String) (now : String) :
    SubmitOutcome × List LeaveRecord :=
  let params := ctx.extracted_params
  let employee_id := pyOrStr ctx.employee_id params.employee_id
  let employee_name := pyOrStr ctx.employee_name params.employee_name
  if !strTruthy employee_id || !strTruthy employee_name then
    (.missingIdentity, store)
  else
    let leave_type := params.leave_type.getD "Annual"
    let reason := params.reason.getD ""
    match params.start_date with
    | none => (.missingStartDate, store)
    | some start =>
      let dn := deriveDates start params.end_date params.num_days
      let balance := get_leave_balance cfg store (employee_id.getD "") leave_type
      let submitNow : Unit → SubmitOutcome × List LeaveRecord := fun _ =>
        match writeErr with
        | some e => (.submitFailed e, store)
        | none =>
          let res := add_leave_request store (employee_id.getD "")
            (employee_name.getD "") leave_type start dn.1 dn.2 reason now
          (.submitted res.1, res.2)
      match balance with
      | some b =>
        if dn.2 > b then (.insufficientBalance leave_type b dn.2, store)
        else submitNow ()
      | none => submitNow ()

/-- The branch taken by `_handle_check_balance`. -/
inductive BalanceOutcome where
  | missingEmployeeId
  | balances (l : List (String × Option Int))
deriving Repr, DecidableEq

/-- `LeaveTrackerAgent._handle_check_balance`: one balance for the requested
type when one was extracted (truthy), otherwise all types in
`LEAVE_TYPES` order.  Pure read: the sheet is not modified. -/
def handle_check_balance (cfg : LeaveConfig) (ctx : LeaveContext)
    (store : List LeaveRecord) : BalanceOutcome :=
  let params := ctx.extracted_params
  let employee_id := pyOrStr ctx.employee_id params.employee_id
  if !strTruthy employee_id then .missingEmployeeId
  else
    let emp := employee_id.getD ""
    if strTruthy params.leave_type then
      .balances [(params.leave_type.getD "",
        get_leave_balance cfg store emp (params.leave_type.getD ""))]
    else
      .balances (LEAVE_TYPES.map (fun lt => (lt, get_leave_balance cfg store emp lt)))

/-- The branch taken by `_handle_view_history` (the modelled sheet read is
total, so the except-branch of the source does not arise here). -/
inductive HistoryOutcome where
  | missingEmployeeId
  | noRecords
  | history (l : List LeaveRecord)
deriving Repr, DecidableEq

/-- `LeaveTrackerAgent._handle_view_history`: all rows of the employee in
storage order (the rendering shows only the last 10).  Pure read. -/
def handle_view_history (ctx : LeaveContext) (store : List LeaveRecord) :
    HistoryOutcome :=
  let employee_id := pyOrStr ctx.employee_id ctx.extracted_params.employee_id
  if !strTruthy employee_id then .missingEmployeeId
  else
    let h := get_leave_history store (employee_id.getD "")
    if h.isEmpty then .noRecords else .history h

/-- The branch taken by `_handle_update_status`, one constructor per
`return` site. -/
inductive UpdateOutcome where
  | notAuthorized
  | missingEmployeeId
  | missingStatus
  | missingReason
  | updateError (msg : String)
  | updated (employee_id status : String)
deriving Repr, DecidableEq

/-- `LeaveTrackerAgent._handle_update_status`: checks the HR flag first and
returns the authorization warning before anything else is read; then
validates employee id, status and reason, and delegates to
`update_leave_status`. -/
def handle_update_status (ctx : LeaveContext) (store : List LeaveRecord)
    (now : String) : UpdateOutcome × List LeaveRecord :=
  if !ctx.is_hr then (.notAuthorized, store)
  else
    let params := ctx.extracted_params
    let employee_id := params.employee_id
    let status := params.status
    let approval_reason := pyOrStr params.approval_reason params.reason
    let start_date := params.start_date
    if !strTruthy employee_id then (.missingEmployeeId, store)
    else if !(status == some "Approved" || status == some "Rejected") then
      (.missingStatus, store)
    else if !strTruthy approval_reason then (.missingReason, store)
    else
      match update_leave_status store (employee_id.getD "") (status.getD "")
        (approval_reason.getD "") start_date now with
      | (.error msg, st) => (.updateError msg, st)
      | (.updated e s _, st) => (.updated e s, st)

/-- The result of `LeaveTrackerAgent.handle`, tagged by the sub-handler
that produced it. -/
inductive LeaveAgentResult where
  | fromSubmit (o : SubmitOutcome)
  | fromBalance (o : BalanceOutcome)
  | fromHistory (o : HistoryOutcome)
  | fromUpdate (o : UpdateOutcome)
  | unknownAction
deriving Repr, DecidableEq

/-- `LeaveTrackerAgent.handle`: lower-cases the context action; when it is
empty, asks the intent-understanding oracle (the external LLM call of
`_understand_intent`) and installs its extracted params; then dispatches
to the matching sub-handler, or the fallback help response. -/
def leave_handle (understand : String → String × ExtractedParams)
    (query : String) (ctx : LeaveContext) (cfg : LeaveConfig)
    (store : List LeaveRecord) (writeErr : Option String) (now : String) :
    LeaveAgentResult × List LeaveRecord :=
  let action0 := pyLower ctx.action
  let step : String × LeaveContext :=
    if action0 == "" then
      let up := understand query
      (up.1, { ctx with extracted_params := up.2 })
    else (action0, ctx)
  let action := step.1
  let ctx := step.2
  if action == "submit_leave" then
    let r := handle_submit_leave cfg ctx store writeErr now
    (.fromSubmit r.1, r.2)
  else if action == "check_balance" then
    (.fromBalance (handle_check_balance cfg ctx store), store)
  else if action == "view_history" then
    (.fromHistory (handle_view_history ctx store), store)
  else if action == "update_status" then
    let r := handle_update_status ctx store now
    (.fromUpdate r.1, r.2)
  else (.unknownAction, store)

/-! ## Feedback Agent (agents/feedback_agent/feedback_agent.py) -/

/-- The `context` dict given to `FeedbackAgent.handle`. -/
structure FeedbackContext where
  action : String := ""
  is_hr : Bool := false
  feedback_text : Option String := none
deriving Repr, DecidableEq, Inhabited

/-- The lead-in phrases stripped by `FeedbackAgent._clean_feedback`, in
source order. -/
def feedbackLeadIns : List String :=
  ["i want to give feedback:",
   "i want to submit feedback:",
   "my feedback is:",
   "feedback:",
   "i'd like to share:",
   "here's my feedback:"]

/-- `FeedbackAgent._clean_feedback`: the first lead-in phrase that the
lower-cased, stripped text starts with is removed (by character count,
from the original text) and the remainder stripped; when none matches the
text is returned unchanged. -/
def clean_feedback (text : String) : String :=
  let tl := pyStrip (pyLower text)
  match feedbackLeadIns.find? (fun p => pyStartsWith tl p) with
  | some p => pyStrip (pyDrop text (pyLen p))
  | none => text

/-- `FeedbackAgent._determine_action`: any trend keyword occurring in the
lower-cased query selects `view_trends`, otherwise `submit_feedback`. -/
def determine_action (query : String) : String :=
  let ql := pyLower query
  if ["trend", "summary", "report", "all feedback", "show feedback",
      "analytics"].any (fun k => strContains ql k)
  then "view_trends" else "submit_feedback"

/-- The branch taken by the feedback handlers, one constructor per
`return` site of `_handle_submit_feedback` and `_handle_view_trends`. -/
inductive FeedbackOutcome where
  | tooShort
  | submitFailed (e : String)
  | submitted (text sentiment action_items : String)
  | trendsNotAuthorized
  | noFeedbackYet
  | summary (total pos neu neg pPos pNeu pNeg : Nat)
      (recent_actions : List String)
deriving Repr, DecidableEq

/-- `FeedbackAgent._handle_submit_feedback`: cleans the text, rejects when
the stripped result has fewer than 10 characters, otherwise analyzes it
(the Claude call, an oracle; its parse fallback to Neutral happens inside
`_analyze_feedback` and is part of the oracle) and appends a row, unless
the try-block raises `failErr`. -/
def handle_submit_feedback (query : String) (ctx : FeedbackContext)
    (analyze : String → String × String) (failErr : Option String)
    (store : List FeedbackRecord) (now : String) :
    FeedbackOutcome × List FeedbackRecord :=
  let feedback_text := clean_feedback (pyOrStrD ctx.feedback_text query)
  if pyLen (pyStrip feedback_text) < 10 then (.tooShort, store)
  else
    match failErr with
    | some e => (.submitFailed e, store)
    | none =>
      let a := analyze feedback_text
      (.submitted feedback_text a.1 a.2,
        store ++ [{ feedback := feedback_text, sentiment := a.1,
                    action_items := a.2, submitted_on := now }])

/-- `FeedbackAgent._handle_view_trends`: HR only; aggregates by sentiment,
computes floor-divided percentage shares with the denominator floored at
one, and collects the non-empty Action Items of the last five rows, in
row order.  Pure read. -/
def handle_view_trends (is_hr : Bool) (store : List FeedbackRecord) :
    FeedbackOutcome :=
  if !is_hr then .trendsNotAuthorized
  else if store.isEmpty then .noFeedbackYet
  else
    let total := store.length
    let pos := (store.filter (fun f => f.sentiment == "Positive")).length
    let neu := (store.filter (fun f => f.sentiment == "Neutral")).length
    let neg := (store.filter (fun f => f.sentiment == "Negative")).length
    let recent := ((store.drop (store.length - 5)).filter
      (fun f => f.action_items != "")).map (fun f => f.action_items)
    .summary total pos neu neg
      (pos * 100 / max total 1) (neu * 100 / max total 1)
      (neg * 100 / max total 1) recent

/-- The summary rendering surfaces `recent_actions[:3]`
(feedback_agent.py line 177). -/
def trends_surfaced (recent_actions : List String) : List String :=
  recent_actions.take 3

/-- `FeedbackAgent.handle`: lower-cases the context action, falls back to
`determine_action` when it is empty, and dispatches; any unknown action
defaults to feedback submission. -/
def feedback_handle (query : String) (ctx : FeedbackContext)
    (analyze : String → String × String) (failErr : Option String)
    (store : List FeedbackRecord) (now : String) :
    FeedbackOutcome × List FeedbackRecord :=
  let action0 := pyLower ctx.action
  let action := if action0 == "" then determine_action query else action0
  if action == "submit_feedback" then
    handle_submit_feedback query ctx analyze failErr store now
  else if action == "view_trends" then
    (handle_view_trends ctx.is_hr store, store)
  else
    handle_submit_feedback query ctx analyze failErr store now

/-! ## Orchestrator (agents/orchestrator/orchestrator.py) -/

/-- The arguments of a `handle_leave_management` tool call as extracted by
the routing model; every field optional. -/
structure RoutingArgs where
  action : Option String := none
  employee_id : Option String := none
  employee_name : Option String := none
  leave_type : Option String := none
  start_date : Option Int := none
  end_date : Option Int := none
  num_days : Option Int := none
  reason : Option String := none
  status : Option String := none
deriving Repr, DecidableEq, Inhabited

/-- The caller-supplied `user_context` of `OrchestratorAgent.chat`. -/
structure UserContext where
  employee_id : Option String := none
  employee_name : Option String := none
  is_hr : Bool := false
deriving Repr, DecidableEq, Inhabited

/-- The context dict built by `OrchestratorAgent._handle_leave`
(lines 339-354): the employee id and name each take the router-extracted
argument first and fall back to the caller context (Python `or`), the
leave type defaults to "Annual" when the router extracted none, and the
same merged employee id is replicated into `extracted_params` (which has
no `employee_name` key). -/
def build_leave_context (arguments : RoutingArgs)
    (user_context : UserContext) : LeaveContext :=
  { action := arguments.action.getD ""
    employee_id := pyOrStr arguments.employee_id user_context.employee_id
    employee_name := pyOrStr arguments.employee_name user_context.employee_name
    is_hr := user_context.is_hr
    extracted_params :=
      { leave_type := some (arguments.leave_type.getD "Annual")
        start_date := arguments.start_date
        end_date := arguments.end_date
        num_days := arguments.num_days
        reason := arguments.reason
        status := arguments.status
        approval_reason := arguments.reason
        employee_id := pyOrStr arguments.employee_id user_context.employee_id
        employee_name := none } }

/-- The context dict built by `OrchestratorAgent._handle_feedback`. -/
def build_feedback_context (action feedback_text : Option String)
    (original_message : String) (user_context : UserContext) :
    FeedbackContext :=
  { action := action.getD "submit_feedback"
    feedback_text := some (feedback_text.getD original_message)
    is_hr := user_context.is_hr }

/-- The user-facing failure message of `_handle_submit_leave`
(leave_agent.py line 216): the raw exception text is interpolated. -/
def submit_leave_failure_message (e : String) : String :=
  "Failed to submit leave request: " ++ e

/-- The user-facing failure message of `_handle_submit_feedback`
(feedback_agent.py line 131): the raw exception text is interpolated. -/
def submit_feedback_failure_message (e : String) : String :=
  "Failed to submit feedback: " ++ e

/-- The reply `OrchestratorAgent._handle_leave` sends to the user: the
agent's own response message when `leave_agent.handle` returned, or the
fixed apology when it raised (the `Except.error` carries the raised
exception's text, which the apology does not use). -/
def orch_leave_reply (agentOutcome : Except String String) : String :=
  match agentOutcome with
  | .ok m => m
  | .error _ =>
    "I'm having trouble processing your leave request. " ++
    "Please try again or contact HR directly."

/-- The reply `OrchestratorAgent._handle_feedback` sends to the user. -/
def orch_feedback_reply (agentOutcome : Except String String) : String :=
  match agentOutcome with
  | .ok m => m
  | .error _ =>
    "I'm having trouble processing your feedback. " ++
    "Please try again later."

/-! ## Spec-modelled comparison definitions -/

/-- Modelled from the spec: "surfaces the most recent 3 action items among
the last 5 records" — the most recent `k` entries of an ordered list, in
order, are its last `k` entries. -/
def spec_most_recent (l : List String) (k : Nat) : List String :=
  l.drop (l.length - k)

/-! ## Helper lemmas -/

/-- Floor division distributes sub-additively over addition. -/
theorem div_add_div_le_div (a b c : Nat) : a / c + b / c ≤ (a + b) / c := by
  rcases Nat.eq_zero_or_pos c with h | h
  · simp [h]
  · rw [Nat.le_div_iff_mul_le h, Nat.add_mul]
    exact Nat.add_le_add (Nat.div_mul_le_self a c) (Nat.div_mul_le_self b c)

/-- The three sentiment buckets of `handle_view_trends` are disjoint, so
their sizes sum to at most the number of records. -/
theorem sentiment_counts_le (l : List FeedbackRecord) :
    (l.filter (fun f => f.sentiment == "Positive")).length +
    (l.filter (fun f => f.sentiment == "Neutral")).length +
    (l.filter (fun f => f.sentiment == "Negative")).length ≤ l.length := by
  induction l with
  | nil => simp
  | cons f tl ih =>
    simp only [List.filter_cons, List.length_cons]
    by_cases h1 : f.sentiment = "Positive" <;>
      by_cases h2 : f.sentiment = "Neutral" <;>
        by_cases h3 : f.sentiment = "Negative" <;>
          simp_all <;> omega

/-- Inversion of `handle_submit_leave`: a submitted record gets its
employee identity from the context-over-params merge, its leave type from
the params (default "Annual"), status Pending, the supplied start date,
the derived end date and day count, and is appended to the store; the
external write must have succeeded. -/
theorem submit_submitted_inv (cfg : LeaveConfig) (ctx : LeaveContext)
    (store : List LeaveRecord) (writeErr : Option String) (now : String)
    (r : LeaveRecord) (st : List LeaveRecord)
    (h : handle_submit_leave cfg ctx store writeErr now = (.submitted r, st)) :
    r.employee_id = (pyOrStr ctx.employee_id ctx.extracted_params.employee_id).getD "" ∧
    r.employee_name = (pyOrStr ctx.employee_name ctx.extracted_params.employee_name).getD "" ∧
    r.leave_type = ctx.extracted_params.leave_type.getD "Annual" ∧
    r.status = "Pending" ∧
    ctx.extracted_params.start_date = some r.start_date ∧
    (r.end_date, r.num_days) =
      deriveDates r.start_date ctx.extracted_params.end_date ctx.extracted_params.num_days ∧
    writeErr = none ∧ st = store ++ [r] := by
  simp only [handle_submit_leave] at h
  split at h
  · simp at h
  · split at h
    · simp at h
    · rename_i start hs
      split at h
      · rename_i b hb
        split at h
        · simp at h
        · split at h
          · simp at h
          · simp only [add_leave_request, Prod.mk.injEq] at h
            obtain ⟨h1, h2⟩ := h
            injection h1 with h1
            subst h1
            subst h2
            simp_all
      · rename_i hb
        split at h
        · simp at h
        · simp only [add_leave_request, Prod.mk.injEq] at h
          obtain ⟨h1, h2⟩ := h
          injection h1 with h1
          subst h1
          subst h2
          simp_all

/-- The derivation of `deriveDates` is internally consistent (day count
equals the inclusive span) whenever at most one of end date / day count
was supplied. -/
theorem deriveDates_consistent (s : Int) (endD numD : Option Int)
    (h : ¬(endD.isSome = true ∧ intTruthy numD = true)) :
    (deriveDates s endD numD).2 = (deriveDates s endD numD).1 - s + 1 := by
  rcases endD with _ | ed
  · rcases numD with _ | k
    · simp [deriveDates, intTruthy]
    · by_cases hk : k = 0
      · simp [deriveDates, intTruthy, hk]
      · simp [deriveDates, intTruthy, hk]
        all_goals omega
  · have hn : intTruthy numD = false := by
      rcases hnn : intTruthy numD with _ | _
      · rfl
      · exact absurd ⟨rfl, hnn⟩ h
    simp [deriveDates, hn]

/-- Inversion of the `LeaveTrackerAgent.handle` dispatch: a result tagged
`fromSubmit` came from `_handle_submit_leave` on a context that differs
from the given one at most in its extracted params (the intent oracle may
have replaced them when the action was empty). -/
theorem leave_handle_submit_inv (u : String → String × ExtractedParams)
    (q : String) (ctx : LeaveContext) (cfg : LeaveConfig)
    (store : List LeaveRecord) (w : Option String) (now : String)
    (o : SubmitOutcome) (st : List LeaveRecord)
    (h : leave_handle u q ctx cfg store w now = (.fromSubmit o, st)) :
    ∃ p : ExtractedParams,
      handle_submit_leave cfg { ctx with extracted_params := p } store w now
        = (o, st) := by
  simp only [leave_handle] at h
  split at h
  all_goals try split at h
  all_goals try split at h
  all_goals try split at h
  all_goals try split at h
  all_goals
    first
      | (simp only [Prod.mk.injEq, LeaveAgentResult.fromSubmit.injEq] at h
         first
           | exact ⟨(u q).2, Prod.ext h.1 h.2⟩
           | exact ⟨ctx.extracted_params, Prod.ext h.1 h.2⟩)
      | simp at h

/-- Inversion of `handle_submit_leave` for the insufficient-balance
branch: the reported leave type is the params' type (default "Annual"),
the reported balance is the computed remaining balance for it, and the
store is unchanged. -/
theorem submit_insufficient_inv (cfg : LeaveConfig) (ctx : LeaveContext)
    (store : List LeaveRecord) (w : Option String) (now : String)
    (lt : String) (b n : Int) (st : List LeaveRecord)
    (h : handle_submit_leave cfg ctx store w now
      = (.insufficientBalance lt b n, st)) :
    lt = ctx.extracted_params.leave_type.getD "Annual" ∧
    get_leave_balance cfg store
      ((pyOrStr ctx.employee_id ctx.extracted_params.employee_id).getD "")
      (ctx.extracted_params.leave_type.getD "Annual") = some b ∧
    st = store := by
  simp only [handle_submit_leave] at h
  split at h
  · simp at h
  · split at h
    · simp at h
    · rename_i start hs
      split at h
      · rename_i b0 hb
        split at h
        · simp only [Prod.mk.injEq, SubmitOutcome.insufficientBalance.injEq] at h
          obtain ⟨⟨e1, e2, e3⟩, e4⟩ := h
          subst e2
          exact ⟨e1.symm, hb, e4.symm⟩
        · split at h <;> simp at h
      · split at h <;> simp at h

/-- When the context action lower-cases to "submit_leave", the agent
dispatch goes straight to `_handle_submit_leave` with the context
unchanged (the intent oracle is not consulted). -/
theorem leave_handle_direct_submit (u : String → String × ExtractedParams)
    (q : String) (ctx : LeaveContext) (cfg : LeaveConfig)
    (store : List LeaveRecord) (w : Option String) (now : String)
    (hact : pyLower ctx.action = "submit_leave") :
    leave_handle u q ctx cfg store w now
      = (.fromSubmit (handle_submit_leave cfg ctx store w now).1,
         (handle_submit_leave cfg ctx store w now).2) := by
  have h1 : (("submit_leave" : String) == "") = false := by decide
  have h2 : (("submit_leave" : String) == "submit_leave") = true := by decide
  simp [leave_handle, hact, h1, h2]

/-- Number of Pending rows of an employee, the measure driving the
`update_leave_status` search. -/
def countPending (l : List LeaveRecord) (emp : String) : Nat :=
  (l.filter (fun r => r.employee_id == emp && r.status == "Pending")).length

/-- A row accepted by the `update_leave_status` match loop belongs to the
employee and has status Pending (the loop only selects Pending rows). -/
theorem matchesPending_imp (r : LeaveRecord) (emp : String) (sd : Option Int)
    (h : matchesPending r emp sd = true) :
    (r.employee_id == emp && r.status == "Pending") = true := by
  simp_all [matchesPending]

/-- When the search finds a row, the employee has at least one Pending
row. -/
theorem find_some_count_pos (emp : String) (sd : Option Int)
    (l : List LeaveRecord) (i : Nat)
    (h : findPendingIdx emp sd l = some i) : 0 < countPending l emp := by
  induction l generalizing i with
  | nil => simp [findPendingIdx] at h
  | cons r tl ih =>
    simp only [findPendingIdx] at h
    split at h
    · rename_i hc
      simp [countPending, List.filter_cons, matchesPending_imp r emp sd hc]
    · rename_i hc
      rcases hj : findPendingIdx emp sd tl with _ | j
      · rw [hj] at h
        simp at h
      · have := ih j hj
        simp only [countPending, List.filter_cons]
        split
        · simp
        · simpa [countPending] using this

/-- With no Pending row left, the search finds nothing, for any start-date
filter. -/
theorem find_none_of_count_zero (l : List LeaveRecord) (emp : String)
    (sd : Option Int) (h : countPending l emp = 0) :
    findPendingIdx emp sd l = none := by
  rcases hf : findPendingIdx emp sd l with _ | i
  · rfl
  · have := find_some_count_pos emp sd l i hf
    omega

/-- Setting the found row's status to anything other than "Pending"
decreases the employee's Pending count by exactly one. -/
theorem count_after_update (l : List LeaveRecord) (emp : String)
    (sd : Option Int) (i : Nat) (hf : findPendingIdx emp sd l = some i)
    (s now c : String) (hstat : s ≠ "Pending") :
    countPending
      (l.set i { l.getD i default with
        status := s
        approval_date := now
        comments := c }) emp + 1 = countPending l emp := by
  induction l generalizing i with
  | nil => simp [findPendingIdx] at hf
  | cons r tl ih =>
    simp only [findPendingIdx] at hf
    split at hf
    · rename_i hc
      injection hf with hf
      subst hf
      have hm := matchesPending_imp r emp sd hc
      have hs : (s == "Pending") = false := by
        simp [hstat]
      simp only [List.getD_cons_zero, List.set_cons_zero, countPending,
        List.filter_cons]
      simp [hm, hs]
    · rename_i hc
      rcases hj : findPendingIdx emp sd tl with _ | j
      · rw [hj] at hf
        simp at hf
      · rw [hj] at hf
        simp only [Option.map_some'] at hf
        injection hf with hf
        subst hf
        have htl := ih j hj
        simp only [List.getD_cons_succ, List.set_cons_succ, countPending,
          List.filter_cons]
        simp only [countPending] at htl
        split
        · simpa using htl
        · simpa using htl

/-! ## Claim theorems -/

/-- C10: when the router extracted no leave type, the orchestrator's
context defaults it to "Annual"; a submit dispatched with it is never
rejected for a missing leave type — a created record carries leave type
"Annual", and an insufficient-balance rejection reports the Annual
balance of the merged employee id. -/
theorem c10_missing_leave_type_defaults_annual (args : RoutingArgs)
    (uc : UserContext) (u : String → String × ExtractedParams) (q : String)
    (cfg : LeaveConfig) (store : List LeaveRecord) (w : Option String)
    (now : String) (hlt : args.leave_type = none)
    (ha : args.action = some "submit_leave") :
    (build_leave_context args uc).extracted_params.leave_type = some "Annual" ∧
    (∀ r st, leave_handle u q (build_leave_context args uc) cfg store w now
        = (.fromSubmit (.submitted r), st) → r.leave_type = "Annual") ∧
    (∀ lt b n st,
      leave_handle u q (build_leave_context args uc) cfg store w now
        = (.fromSubmit (.insufficientBalance lt b n), st) →
      lt = "Annual" ∧
      get_leave_balance cfg store
        ((pyOrStr args.employee_id uc.employee_id).getD "") "Annual"
        = some b) := by
  have hact : pyLower (build_leave_context args uc).action = "submit_leave" := by
    rw [show (build_leave_context args uc).action = "submit_leave" from by
      simp [build_leave_context, ha]]
    decide
  have hlt' : (build_leave_context args uc).extracted_params.leave_type
      = some "Annual" := by
    simp [build_leave_context, hlt]
  refine ⟨hlt', ?_, ?_⟩
  · intro r st h
    rw [leave_handle_direct_submit u q _ cfg store w now hact] at h
    simp only [Prod.mk.injEq, LeaveAgentResult.fromSubmit.injEq] at h
    have hfull : handle_submit_leave cfg (build_leave_context args uc) store w now
        = (.submitted r, st) := Prod.ext h.1 h.2
    obtain ⟨-, -, h3, -⟩ :=
      submit_submitted_inv cfg _ store w now r st hfull
    rw [h3, hlt']
    rfl
  · intro lt b n st h
    rw [leave_handle_direct_submit u q _ cfg store w now hact] at h
    simp only [Prod.mk.injEq, LeaveAgentResult.fromSubmit.injEq] at h
    have hfull : handle_submit_leave cfg (build_leave_context args uc) store w now
        = (.insufficientBalance lt b n, st) := Prod.ext h.1 h.2
    obtain ⟨e1, e2, -⟩ :=
      submit_insufficient_inv cfg _ store w now lt b n st hfull
    rw [hlt'] at e1 e2
    refine ⟨by simpa using e1, ?_⟩
    simpa [build_leave_context, pyOrStr, ite_self] using e2

/-- C10 witness: no extracted leave type; the submitted record's type is
"Annual". -/
theorem c10_witness :
    ({ action := some "submit_leave", employee_id := some "E1",
       employee_name := some "Alice", start_date := some 0,
       num_days := some 2 } : RoutingArgs).leave_type = none ∧
    (⟨"E1", "Alice", "Annual", 0, 1, 2, "Pending", "t", "", ""⟩ :
        LeaveRecord).leave_type = "Annual" :=
  ⟨by decide,
   (c10_missing_leave_type_defaults_annual
     { action := some "submit_leave", employee_id := some "E1",
       employee_name := some "Alice", start_date := some 0,
       num_days := some 2 }
     {} (fun _ => ("", {})) "q" {} [] none "t"
     (by decide) (by decide)).2.1
     ⟨"E1", "Alice", "Annual", 0, 1, 2, "Pending", "t", "", ""⟩
     [⟨"E1", "Alice", "Annual", 0, 1, 2, "Pending", "t", "", ""⟩]
     (by decide)⟩

/-- C1: corrected direction — in the context built by
`OrchestratorAgent._handle_leave`, a truthy router-extracted employee id
or name takes precedence over the caller context: whenever the router
extracted both identity fields, every record submitted through the leave
agent carries the extracted identity, for every caller context. -/
theorem c1_extracted_identity_precedence (args : RoutingArgs)
    (uc : UserContext) (u : String → String × ExtractedParams) (q : String)
    (cfg : LeaveConfig) (store : List LeaveRecord) (w : Option String)
    (now : String) (r : LeaveRecord) (st : List LeaveRecord)
    (hid : strTruthy args.employee_id = true)
    (hname : strTruthy args.employee_name = true)
    (h : leave_handle u q (build_leave_context args uc) cfg store w now
      = (.fromSubmit (.submitted r), st)) :
    r.employee_id = args.employee_id.getD "" ∧
    r.employee_name = args.employee_name.getD "" := by
  obtain ⟨p, hp⟩ := leave_handle_submit_inv u q _ cfg store w now _ st h
  obtain ⟨h1, h2, -⟩ := submit_submitted_inv cfg _ store w now r st hp
  constructor
  · rw [h1]
    simp [build_leave_context, pyOrStr, hid]
  · rw [h2]
    simp [build_leave_context, pyOrStr, hname]

/-- C1 counterexample: the caller context carries employee id "E1" and
name "N1" (an authenticated session), the router extracted "E2"/"N2" from
free text; the record handed to the leave sheet carries the extracted
"E2"/"N2", not the caller's "E1"/"N1" as the claim requires. -/
theorem c1_counterexample :
    (build_leave_context
      { action := some "submit_leave", employee_id := some "E2",
        employee_name := some "N2", start_date := some 10,
        num_days := some 2 }
      { employee_id := some "E1", employee_name := some "N1",
        is_hr := false }).employee_id = some "E2" ∧
    leave_handle (fun _ => ("", {})) "q"
      (build_leave_context
        { action := some "submit_leave", employee_id := some "E2",
          employee_name := some "N2", start_date := some 10,
          num_days := some 2 }
        { employee_id := some "E1", employee_name := some "N1",
          is_hr := false })
      {} [] none "t"
      = (.fromSubmit (.submitted
          ⟨"E2", "N2", "Annual", 10, 11, 2, "Pending", "t", "", ""⟩),
         [⟨"E2", "N2", "Annual", 10, 11, 2, "Pending", "t", "", ""⟩]) ∧
    ("E2" : String) ≠ "E1" ∧ ("N2" : String) ≠ "N1" := by
  refine ⟨by decide, by decide, by decide, by decide⟩

/-- C1 witness: the amended theorem applied at the counterexample input. -/
theorem c1_witness :
    strTruthy (some "E2") = true ∧
    (⟨"E2", "N2", "Annual", 10, 11, 2, "Pending", "t", "", ""⟩ :
        LeaveRecord).employee_id = (some "E2").getD "" ∧
    (⟨"E2", "N2", "Annual", 10, 11, 2, "Pending", "t", "", ""⟩ :
        LeaveRecord).employee_name = (some "N2").getD "" :=
  ⟨by decide,
   (c1_extracted_identity_precedence
     { action := some "submit_leave", employee_id := some "E2",
       employee_name := some "N2", start_date := some 10,
       num_days := some 2 }
     { employee_id := some "E1", employee_name := some "N1",
       is_hr := false }
     (fun _ => ("", {})) "q" {} [] none "t"
     ⟨"E2", "N2", "Annual", 10, 11, 2, "Pending", "t", "", ""⟩
     [⟨"E2", "N2", "Annual", 10, 11, 2, "Pending", "t", "", ""⟩]
     (by decide) (by decide) (by decide)).1,
   (c1_extracted_identity_precedence
     { action := some "submit_leave", employee_id := some "E2",
       employee_name := some "N2", start_date := some 10,
       num_days := some 2 }
     { employee_id := some "E1", employee_name := some "N1",
       is_hr := false }
     (fun _ => ("", {})) "q" {} [] none "t"
     ⟨"E2", "N2", "Annual", 10, 11, 2, "Pending", "t", "", ""⟩
     [⟨"E2", "N2", "Annual", 10, 11, 2, "Pending", "t", "", ""⟩]
     (by decide) (by decide) (by decide)).2⟩

/-- C3: every call of `_handle_update_status` with the privilege flag false
returns the authorization-warning response and the unchanged store, for
every store, every parameter set, and whether or not a Pending record
exists; moreover the response does not depend on the store at all (no
record is read). -/
theorem c3_update_status_unauthorized (ctx : LeaveContext)
    (store store' : List LeaveRecord) (now now' : String)
    (h : ctx.is_hr = false) :
    handle_update_status ctx store now = (.notAuthorized, store) ∧
    (handle_update_status ctx store now).1 =
      (handle_update_status ctx store' now').1 := by
  simp [handle_update_status, h]

/-- C3 witness: a concrete non-HR call with a Pending record present. -/
theorem c3_witness :
    ({ action := "update_status", is_hr := false,
       extracted_params := { employee_id := some "E1",
                             status := some "Approved",
                             approval_reason := some "ok" } } :
        LeaveContext).is_hr = false ∧
    handle_update_status
      { action := "update_status", is_hr := false,
        extracted_params := { employee_id := some "E1",
                              status := some "Approved",
                              approval_reason := some "ok" } }
      [⟨"E1", "A", "Annual", 0, 2, 3, "Pending", "t", "", ""⟩] "t1"
      = (.notAuthorized,
         [⟨"E1", "A", "Annual", 0, 2, 3, "Pending", "t", "", ""⟩]) :=
  ⟨by decide,
   (c3_update_status_unauthorized _
     [⟨"E1", "A", "Annual", 0, 2, 3, "Pending", "t", "", ""⟩] [] "t1" "t1"
     (by decide)).1⟩

/-- C7: for every non-empty feedback collection, the three integer
percentage shares reported by `_handle_view_trends` (floor division with
the denominator floored at one; non-negative by construction, being
natural numbers) sum to at most 100. -/
theorem c7_trend_percentages (store : List FeedbackRecord) (hne : store ≠ [])
    (total pos neu neg pPos pNeu pNeg : Nat) (acts : List String)
    (h : handle_view_trends true store =
      .summary total pos neu neg pPos pNeu pNeg acts) :
    pPos + pNeu + pNeg ≤ 100 := by
  have hlen : 1 ≤ store.length := by
    cases store with
    | nil => simp at hne
    | cons a l => simp
  unfold handle_view_trends at h
  rw [if_neg (by simp)] at h
  rw [if_neg (by simp [List.isEmpty_iff, hne])] at h
  injection h with h1 h2 h3 h4 h5 h6 h7 h8
  subst h5
  subst h6
  subst h7
  have hmax : max store.length 1 = store.length := Nat.max_eq_left hlen
  rw [hmax]
  have hsum := sentiment_counts_le store
  calc
    (store.filter (fun f => f.sentiment == "Positive")).length * 100 / store.length +
        (store.filter (fun f => f.sentiment == "Neutral")).length * 100 / store.length +
        (store.filter (fun f => f.sentiment == "Negative")).length * 100 / store.length
      ≤ ((store.filter (fun f => f.sentiment == "Positive")).length * 100 +
          (store.filter (fun f => f.sentiment == "Neutral")).length * 100) / store.length +
        (store.filter (fun f => f.sentiment == "Negative")).length * 100 / store.length :=
        Nat.add_le_add_right (div_add_div_le_div _ _ _) _
    _ ≤ ((store.filter (fun f => f.sentiment == "Positive")).length * 100 +
          (store.filter (fun f => f.sentiment == "Neutral")).length * 100 +
          (store.filter (fun f => f.sentiment == "Negative")).length * 100) / store.length :=
        div_add_div_le_div _ _ _
    _ = ((store.filter (fun f => f.sentiment == "Positive")).length +
          (store.filter (fun f => f.sentiment == "Neutral")).length +
          (store.filter (fun f => f.sentiment == "Negative")).length) * 100 / store.length := by
        ring_nf
    _ ≤ store.length * 100 / store.length :=
        Nat.div_le_div_right (Nat.mul_le_mul_right 100 hsum)
    _ = 100 := Nat.mul_div_cancel_left 100 hlen

/-- C7 witness: one Positive record gives shares 100/0/0. -/
theorem c7_witness :
    ([⟨"f", "Positive", "", "d"⟩] : List FeedbackRecord) ≠ [] ∧
    handle_view_trends true [⟨"f", "Positive", "", "d"⟩]
      = .summary 1 1 0 0 100 0 0 [] ∧
    100 + 0 + 0 ≤ 100 :=
  ⟨by decide, by decide,
   c7_trend_percentages [⟨"f", "Positive", "", "d"⟩] (by decide)
     1 1 0 0 100 0 0 [] (by decide)⟩

/-- C6 counterexample: a sheet-write failure with exception text "boom"
during leave submission is caught inside `_handle_submit_leave`, whose
user-facing message interpolates the raw text; the orchestrator passes
that message through unchanged, so the user-visible reply contains
"boom".  The feedback handler behaves the same way. -/
theorem c6_counterexample :
    (handle_submit_leave {}
      { employee_id := some "E1", employee_name := some "Alice",
        extracted_params := { start_date := some 0, num_days := some 2 } }
      [] (some "boom") "t").1 = .submitFailed "boom" ∧
    orch_leave_reply (.ok (submit_leave_failure_message "boom"))
      = "Failed to submit leave request: " ++ "boom" ∧
    strContains (orch_leave_reply (.ok (submit_leave_failure_message "boom")))
      "boom" = true ∧
    (handle_submit_feedback "feedback: the office is too cold" {}
      (fun _ => ("Negative", "x")) (some "boom") [] "d").1
      = .submitFailed "boom" ∧
    strContains (submit_feedback_failure_message "boom") "boom" = true := by
  refine ⟨by decide, by decide, by decide, by decide, by decide⟩

/-- C6 amended: an error that propagates out of a Domain Handler is
converted at the dispatcher boundary into a fixed apology that does not
depend on the exception text; however, store errors caught inside the
leave and feedback handlers produce user-visible messages that embed the
raw exception text (see the counterexample). -/
theorem c6_dispatcher_apology_fixed (e₁ e₂ : String) :
    orch_leave_reply (.error e₁) = orch_leave_reply (.error e₂) ∧
    orch_leave_reply (.error e₁)
      = "I'm having trouble processing your leave request. " ++
        "Please try again or contact HR directly." ∧
    orch_feedback_reply (.error e₁) = orch_feedback_reply (.error e₂) ∧
    orch_feedback_reply (.error e₁)
      = "I'm having trouble processing your feedback. " ++
        "Please try again later." :=
  ⟨rfl, rfl, rfl, rfl⟩

/-- C8 counterexample: with five records whose action items are all
non-empty, the summary surfaces the first three of the five-record window
("A1", "A2", "A3"), not the most recent three ("A3", "A4", "A5") that the
claim requires. -/
theorem c8_counterexample :
    handle_view_trends true
      [⟨"f1", "Positive", "A1", "d"⟩, ⟨"f2", "Positive", "A2", "d"⟩,
       ⟨"f3", "Neutral", "A3", "d"⟩, ⟨"f4", "Negative", "A4", "d"⟩,
       ⟨"f5", "Positive", "A5", "d"⟩]
      = .summary 5 3 1 1 60 20 20 ["A1", "A2", "A3", "A4", "A5"] ∧
    trends_surfaced ["A1", "A2", "A3", "A4", "A5"] = ["A1", "A2", "A3"] ∧
    spec_most_recent ["A1", "A2", "A3", "A4", "A5"] 3 = ["A3", "A4", "A5"] ∧
    trends_surfaced ["A1", "A2", "A3", "A4", "A5"] ≠
      spec_most_recent ["A1", "A2", "A3", "A4", "A5"] 3 := by
  refine ⟨by decide, by decide, by decide, by decide⟩

/-- C8 amended: `_handle_view_trends` surfaces the first up-to-three
non-empty action items among the last five records, in order; this agrees
with the spec's "most recent 3" exactly when at most three of the last
five records carry a non-empty action item. -/
theorem c8_surfaced_actions (store : List FeedbackRecord)
    (_h5 : 5 ≤ store.length) (total pos neu neg pPos pNeu pNeg : Nat)
    (acts : List String)
    (_h : handle_view_trends true store =
      .summary total pos neu neg pPos pNeu pNeg acts)
    (hlen : acts.length ≤ 3) :
    trends_surfaced acts = acts ∧
    trends_surfaced acts = spec_most_recent acts 3 := by
  have h1 : trends_surfaced acts = acts := List.take_of_length_le hlen
  have h2 : spec_most_recent acts 3 = acts := by
    unfold spec_most_recent
    rw [Nat.sub_eq_zero_of_le hlen, List.drop_zero]
  exact ⟨h1, by rw [h1, h2]⟩

/-- C8 witness: five records, two of which carry action items. -/
theorem c8_witness :
    handle_view_trends true
      [⟨"f1", "Positive", "", "d"⟩, ⟨"f2", "Positive", "A2", "d"⟩,
       ⟨"f3", "Neutral", "", "d"⟩, ⟨"f4", "Negative", "A4", "d"⟩,
       ⟨"f5", "Positive", "", "d"⟩]
      = .summary 5 3 1 1 60 20 20 ["A2", "A4"] ∧
    trends_surfaced ["A2", "A4"] = ["A2", "A4"] ∧
    trends_surfaced ["A2", "A4"] = spec_most_recent ["A2", "A4"] 3 :=
  ⟨by decide,
   (c8_surfaced_actions
     [⟨"f1", "Positive", "", "d"⟩, ⟨"f2", "Positive", "A2", "d"⟩,
      ⟨"f3", "Neutral", "", "d"⟩, ⟨"f4", "Negative", "A4", "d"⟩,
      ⟨"f5", "Positive", "", "d"⟩] (by decide) 5 3 1 1 60 20 20 ["A2", "A4"]
     (by decide) (by decide)).1,
   (c8_surfaced_actions
     [⟨"f1", "Positive", "", "d"⟩, ⟨"f2", "Positive", "A2", "d"⟩,
      ⟨"f3", "Neutral", "", "d"⟩, ⟨"f4", "Negative", "A4", "d"⟩,
      ⟨"f5", "Positive", "", "d"⟩] (by decide) 5 3 1 1 60 20 20 ["A2", "A4"]
     (by decide) (by decide)).2⟩

/-- C2 counterexample: "Bereavement" is in `LEAVE_TYPES` but has no entry
in `get_leave_balance_defaults`, so `_get_leave_balance` returns None, the
balance check is skipped, and a 1000-day Bereavement request on an empty
store is accepted and written instead of being rejected. -/
theorem c2_counterexample :
    get_leave_balance_defaults {} "Bereavement" = none ∧
    "Bereavement" ∈ LEAVE_TYPES ∧
    handle_submit_leave {}
      { employee_id := some "E1", employee_name := some "Alice",
        extracted_params := { leave_type := some "Bereavement",
                              start_date := some 0,
                              num_days := some 1000 } }
      [] none "t"
      = (.submitted
          ⟨"E1", "Alice", "Bereavement", 0, 999, 1000, "Pending", "t", "", ""⟩,
         [⟨"E1", "Alice", "Bereavement", 0, 999, 1000, "Pending", "t", "", ""⟩]) := by
  refine ⟨by decide, by decide, by decide⟩

/-- C2 amended: for every leave type that has a configured allowance
(Annual, Sick, Personal, Maternity, Paternity, Marriage), a submission
whose derived day count exceeds the remaining balance is rejected with the
insufficient-balance response carrying the actual balance and requested
numbers, and the store is unchanged — for every employee, store, and
external-write disposition. -/
theorem c2_insufficient_balance_rejects (cfg : LeaveConfig)
    (ctx : LeaveContext) (store : List LeaveRecord)
    (writeErr : Option String) (now : String) (s d : Int)
    (hid : strTruthy (pyOrStr ctx.employee_id ctx.extracted_params.employee_id) = true)
    (hname : strTruthy (pyOrStr ctx.employee_name ctx.extracted_params.employee_name) = true)
    (hstart : ctx.extracted_params.start_date = some s)
    (hd : get_leave_balance_defaults cfg (ctx.extracted_params.leave_type.getD "Annual")
      = some d)
    (hover : max 0 (d - calculate_used_leaves store
        ((pyOrStr ctx.employee_id ctx.extracted_params.employee_id).getD "")
        (ctx.extracted_params.leave_type.getD "Annual"))
      < (deriveDates s ctx.extracted_params.end_date ctx.extracted_params.num_days).2) :
    handle_submit_leave cfg ctx store writeErr now
      = (.insufficientBalance (ctx.extracted_params.leave_type.getD "Annual")
          (max 0 (d - calculate_used_leaves store
            ((pyOrStr ctx.employee_id ctx.extracted_params.employee_id).getD "")
            (ctx.extracted_params.leave_type.getD "Annual")))
          (deriveDates s ctx.extracted_params.end_date ctx.extracted_params.num_days).2,
         store) := by
  have hb : get_leave_balance cfg store
      ((pyOrStr ctx.employee_id ctx.extracted_params.employee_id).getD "")
      (ctx.extracted_params.leave_type.getD "Annual")
      = some (max 0 (d - calculate_used_leaves store
          ((pyOrStr ctx.employee_id ctx.extracted_params.employee_id).getD "")
          (ctx.extracted_params.leave_type.getD "Annual"))) := by
    simp [get_leave_balance, hd]
  simp only [handle_submit_leave, hid, hname, hstart, hb]
  simp [hover]

/-- C2 witness: a 25-day Annual request against the default 20-day
allowance (empty store, so balance 20) is rejected and nothing is
written. -/
theorem c2_witness :
    handle_submit_leave {}
      { employee_id := some "E1", employee_name := some "Alice",
        extracted_params := { leave_type := some "Annual",
                              start_date := some 0,
                              num_days := some 25 } }
      [] (some "boom") "t"
      = (.insufficientBalance "Annual" 20 25, []) := by
  have h := c2_insufficient_balance_rejects {}
    { employee_id := some "E1", employee_name := some "Alice",
      extracted_params := { leave_type := some "Annual",
                            start_date := some 0,
                            num_days := some 25 } }
    [] (some "boom") "t" 0 20
    (by decide) (by decide) (by decide) (by decide) (by decide)
  simpa using h

/-- C4: once `update_leave_status` has moved an employee's only Pending
record to a non-Pending status (Approved or Rejected), every later
`update_leave_status` call for that employee — with any status, reason,
start-date filter or timestamp — finds no Pending match and returns the
NotFound error with the store unchanged. -/
theorem c4_no_pending_rematch (store : List LeaveRecord)
    (emp status reason : String) (sd : Option Int) (now : String)
    (st₁ : List LeaveRecord) (hstat : status ≠ "Pending")
    (huniq : countPending store emp = 1)
    (h : update_leave_status store emp status reason sd now
      = (.updated emp status reason, st₁)) :
    ∀ status₂ reason₂ sd₂ now₂,
      update_leave_status st₁ emp status₂ reason₂ sd₂ now₂
        = (.error ("No pending leave found for employee " ++ emp), st₁) := by
  rcases hf : findPendingIdx emp sd store with _ | i
  · simp only [update_leave_status, hf] at h
    simp at h
  · simp only [update_leave_status, hf] at h
    simp only [Prod.mk.injEq] at h
    have hcount : countPending st₁ emp = 0 := by
      have hcu := count_after_update store emp sd i hf status now
        (if (store.getD i default).comments != "" then
          (store.getD i default).comments ++ " | HR: " ++ reason
        else "HR: " ++ reason) hstat
      rw [h.2] at hcu
      omega
    intro status₂ reason₂ sd₂ now₂
    have hfnone := find_none_of_count_zero st₁ emp sd₂ hcount
    simp only [update_leave_status, hfnone]

/-- C4 witness: approve the single Pending record of "E1", then try to
reject it again — NotFound, store unchanged. -/
theorem c4_witness :
    update_leave_status
      [⟨"E1", "A", "Annual", 0, 2, 3, "Approved", "t", "t1", "HR: ok"⟩]
      "E1" "Rejected" "no" none "t2"
      = (.error ("No pending leave found for employee " ++ "E1"),
         [⟨"E1", "A", "Annual", 0, 2, 3, "Approved", "t", "t1", "HR: ok"⟩]) :=
  c4_no_pending_rematch
    [⟨"E1", "A", "Annual", 0, 2, 3, "Pending", "t", "", ""⟩]
    "E1" "Approved" "ok" none "t1"
    [⟨"E1", "A", "Annual", 0, 2, 3, "Approved", "t", "t1", "HR: ok"⟩]
    (by decide) (by decide) (by decide) "Rejected" "no" none "t2"

/-- C5 counterexample: when the router supplies start 2026-01-15 (day 0),
end 2026-01-17 (day 2) and num_days 5, `_handle_submit_leave` recomputes
neither value and stores the inconsistent pair: the created record has day
count 5 but inclusive span 3. -/
theorem c5_counterexample :
    handle_submit_leave {}
      { employee_id := some "E1", employee_name := some "Alice",
        extracted_params := { start_date := some 0, end_date := some 2,
                              num_days := some 5 } }
      [] none "t"
      = (.submitted ⟨"E1", "Alice", "Annual", 0, 2, 5, "Pending", "t", "", ""⟩,
         [⟨"E1", "Alice", "Annual", 0, 2, 5, "Pending", "t", "", ""⟩]) ∧
    (5 : Int) ≠ 2 - 0 + 1 := by
  refine ⟨by decide, by decide⟩

/-- C5 amended: every record created by `_handle_submit_leave` has day
count equal to the inclusive span between its start and end dates,
provided at most one of end date / day count was supplied by the router;
when both are supplied they are stored as given with no consistency
check. -/
theorem c5_day_count_invariant (cfg : LeaveConfig) (ctx : LeaveContext)
    (store : List LeaveRecord) (writeErr : Option String) (now : String)
    (r : LeaveRecord) (st : List LeaveRecord)
    (hnot : ¬(ctx.extracted_params.end_date.isSome = true ∧
              intTruthy ctx.extracted_params.num_days = true))
    (h : handle_submit_leave cfg ctx store writeErr now = (.submitted r, st)) :
    r.num_days = r.end_date - r.start_date + 1 := by
  obtain ⟨-, -, -, -, -, hdn, -, -⟩ :=
    submit_submitted_inv cfg ctx store writeErr now r st h
  have hc := deriveDates_consistent r.start_date ctx.extracted_params.end_date
    ctx.extracted_params.num_days hnot
  have h1 : r.end_date = (deriveDates r.start_date ctx.extracted_params.end_date
      ctx.extracted_params.num_days).1 := by rw [← hdn]
  have h2 : r.num_days = (deriveDates r.start_date ctx.extracted_params.end_date
      ctx.extracted_params.num_days).2 := by rw [← hdn]
  rw [h2, hc, ← h1]

/-- C5 witness: only an end date supplied; the created record has
num_days 3 = 2 - 0 + 1. -/
theorem c5_witness :
    (¬((some (2 : Int)).isSome = true ∧ intTruthy none = true)) ∧
    (⟨"E1", "Alice", "Annual", 0, 2, 3, "Pending", "t", "", ""⟩ :
        LeaveRecord).num_days
      = (⟨"E1", "Alice", "Annual", 0, 2, 3, "Pending", "t", "", ""⟩ :
        LeaveRecord).end_date
        - (⟨"E1", "Alice", "Annual", 0, 2, 3, "Pending", "t", "", ""⟩ :
        LeaveRecord).start_date + 1 :=
  ⟨by decide,
   c5_day_count_invariant {}
     { employee_id := some "E1", employee_name := some "Alice",
       extracted_params := { start_date := some 0, end_date := some 2 } }
     [] none "t"
     ⟨"E1", "Alice", "Annual", 0, 2, 3, "Pending", "t", "", ""⟩
     [⟨"E1", "Alice", "Annual", 0, 2, 3, "Pending", "t", "", ""⟩]
     (by decide) (by decide)⟩

/-- C9: a feedback submission whose text, after the lead-in stripping of
`_clean_feedback`, is shorter than 10 characters when stripped of
whitespace is rejected with the validation response and the store is
unchanged (for every analysis oracle and even when the external write
would fail); with 10 or more characters and a successful external call,
exactly the cleaned record is appended. -/
theorem c9_feedback_length_gate (query : String) (ctx : FeedbackContext)
    (analyze : String → String × String) (store : List FeedbackRecord)
    (now : String) :
    (pyLen (pyStrip (clean_feedback (pyOrStrD ctx.feedback_text query))) < 10 →
      ∀ failErr, handle_submit_feedback query ctx analyze failErr store now
        = (.tooShort, store)) ∧
    (10 ≤ pyLen (pyStrip (clean_feedback (pyOrStrD ctx.feedback_text query))) →
      handle_submit_feedback query ctx analyze none store now
        = (.submitted (clean_feedback (pyOrStrD ctx.feedback_text query))
            (analyze (clean_feedback (pyOrStrD ctx.feedback_text query))).1
            (analyze (clean_feedback (pyOrStrD ctx.feedback_text query))).2,
           store ++
            [{ feedback := clean_feedback (pyOrStrD ctx.feedback_text query),
               sentiment := (analyze (clean_feedback (pyOrStrD ctx.feedback_text query))).1,
               action_items := (analyze (clean_feedback (pyOrStrD ctx.feedback_text query))).2,
               submitted_on := now }])) := by
  constructor
  · intro h failErr
    simp [handle_submit_feedback, h]
  · intro h
    simp [handle_submit_feedback, Nat.not_lt.2 h]

/-- C9 witness: "feedback: bad" strips to 3 characters and is rejected;
"feedback: the office is too cold" strips to 22 characters and is
recorded. -/
theorem c9_witness :
    handle_submit_feedback "feedback: bad" {}
      (fun _ => ("Neutral", "x")) (some "boom") [] "d" = (.tooShort, []) ∧
    handle_submit_feedback "feedback: the office is too cold" {}
      (fun _ => ("Negative", "fix heating")) none [] "d"
      = (.submitted "the office is too cold" "Negative" "fix heating",
         [⟨"the office is too cold", "Negative", "fix heating", "d"⟩]) :=
  ⟨(c9_feedback_length_gate "feedback: bad" {} (fun _ => ("Neutral", "x"))
      [] "d").1 (by decide) (some "boom"),
   (c9_feedback_length_gate "feedback: the office is too cold" {}
      (fun _ => ("Negative", "fix heating")) [] "d").2 (by decide)⟩

end VirtualHR
